import Mathlib

/-
Shallow embedding of the posix wrapper layer of this repository:

  - src/iceoryx_hoofs/source/posix_wrapper/file_lock.cpp
      FileLockBuilder::create, FileLock move assignment, FileLock::closeFileDescriptor,
      FileLock::invalidate, FileLock::convertErrnoToFileLockError
  - src/iceoryx_hoofs/source/posix_wrapper/shared_memory_object.cpp
      SharedMemoryObjectBuilder::create, SharedMemoryObject::allocate,
      SharedMemoryObject::finalizeAllocation, memsetSigbusHandler

OS calls (open, flock, close, remove, mmap, signal registration, memset) are modelled
by explicit outcome parameters and by event traces listing which operations the code
attempts, in order.  Machine integers that matter here (file descriptors, errno values)
are modelled as Int; sizes, alignments and addresses as Nat.
-/

namespace Iox

/-! ## Errno constants (Linux numeric values, as used by the platform layer) -/

def EPERM : Int := 1

def ENOENT : Int := 2

def ENXIO : Int := 6

def EWOULDBLOCK : Int := 11

def ENOMEM : Int := 12

def EACCES : Int := 13

def EFAULT : Int := 14

def ENODEV : Int := 19

def ENFILE : Int := 23

def EMFILE : Int := 24

def ETXTBSY : Int := 26

def EFBIG : Int := 27

def ENOSPC : Int := 28

def EROFS : Int := 30

def ENOLCK : Int := 37

def ENOSYS : Int := 38

def ELOOP : Int := 40

def EOVERFLOW : Int := 75

def EDQUOT : Int := 122

def EIOcode : Int := 5

/-! ## FileLockError (closed error enumeration of the FileLock component) -/

inductive FileLockError
  | INVALID_FILE_NAME
  | INVALID_PATH
  | LOCKED_BY_OTHER_PROCESS
  | ACCESS_DENIED
  | QUOTA_EXHAUSTED
  | SYSTEM_LIMIT
  | PROCESS_LIMIT
  | NO_SUCH_DIRECTORY
  | SPECIAL_FILE
  | FILE_TOO_LARGE
  | FILE_IN_USE
  | OUT_OF_MEMORY
  | I_O_ERROR
  | SYS_CALL_NOT_IMPLEMENTED
  | INTERNAL_LOGIC_ERROR
deriving DecidableEq, Repr

/-- FileLock::convertErrnoToFileLockError (file_lock.cpp lines 182-292).
The switch on errnum; the fileLockPath argument is used by the source only for
log messages and does not influence the returned value. -/
def convertErrnoToFileLockError (errnum : Int) (fileLockPath : String) : FileLockError :=
  if errnum = EACCES then FileLockError.ACCESS_DENIED
  else if errnum = EDQUOT then FileLockError.QUOTA_EXHAUSTED
  else if errnum = EFAULT then FileLockError.ACCESS_DENIED
  else if errnum = EFBIG ∨ errnum = EOVERFLOW then FileLockError.FILE_TOO_LARGE
  else if errnum = ELOOP then FileLockError.INVALID_FILE_NAME
  else if errnum = EMFILE then FileLockError.PROCESS_LIMIT
  else if errnum = ENFILE then FileLockError.SYSTEM_LIMIT
  else if errnum = ENODEV then FileLockError.ACCESS_DENIED
  else if errnum = ENOENT then FileLockError.NO_SUCH_DIRECTORY
  else if errnum = ENOMEM then FileLockError.OUT_OF_MEMORY
  else if errnum = ENOSPC then FileLockError.QUOTA_EXHAUSTED
  else if errnum = ENOSYS then FileLockError.SYS_CALL_NOT_IMPLEMENTED
  else if errnum = ENXIO then FileLockError.SPECIAL_FILE
  else if errnum = EPERM then FileLockError.ACCESS_DENIED
  else if errnum = EROFS then FileLockError.INVALID_FILE_NAME
  else if errnum = ETXTBSY then FileLockError.FILE_IN_USE
  else if errnum = EWOULDBLOCK then FileLockError.LOCKED_BY_OTHER_PROCESS
  else if errnum = ENOLCK then FileLockError.SYSTEM_LIMIT
  else if errnum = EIOcode then FileLockError.I_O_ERROR
  else FileLockError.INTERNAL_LOGIC_ERROR

/-- The errno values that the switch of convertErrnoToFileLockError maps explicitly. -/
def mappedErrnos : List Int :=
  [EACCES, EDQUOT, EFAULT, EFBIG, EOVERFLOW, ELOOP, EMFILE, ENFILE, ENODEV, ENOENT,
   ENOMEM, ENOSPC, ENOSYS, ENXIO, EPERM, EROFS, ETXTBSY, EWOULDBLOCK, ENOLCK, EIOcode]

/-! ## FileLock state and OS-operation traces -/

def INVALID_FD : Int := -1

/-- FileLock data: file descriptor and lock-file path (file_lock.cpp members
m_fd and m_fileLockPath). -/
structure FileLock where
  m_fd : Int
  m_fileLockPath : String
deriving DecidableEq, Repr

/-- FileLock::invalidate (file_lock.cpp lines 173-177): sentinel descriptor,
empty path. -/
def FileLock.invalidate (lock : FileLock) : FileLock :=
  { m_fd := INVALID_FD, m_fileLockPath := "" }

/-- An operation issued to the operating system by the FileLock code. -/
inductive OsOp
  | openLockFile (path : String)
  | flockExclusive (fd : Int)
  | flockUnlock (fd : Int)
  | closeFd (fd : Int)
  | removeFile (path : String)
deriving DecidableEq, Repr

/-- Outcomes of the three cleanup syscalls issued by FileLock::closeFileDescriptor
(whether each of flock(UNLOCK), close, remove reports failure). -/
structure CleanupOutcome where
  unlockFails : Bool
  closeFails : Bool
  removeFails : Bool
deriving DecidableEq, Repr

def cleanupAllOk : CleanupOutcome :=
  { unlockFails := false, closeFails := false, removeFails := false }

/-- FileLock::closeFileDescriptor (file_lock.cpp lines 138-171): when the
descriptor is valid, unconditionally attempt unlock, close and remove (in that
order, each regardless of earlier failures), and report INTERNAL_LOGIC_ERROR if
any of the three failed; on a sentinel descriptor do nothing and succeed.
Returns the trace of attempted OS operations together with the result. -/
def FileLock.closeFileDescriptor (lock : FileLock) (os : CleanupOutcome) :
    List OsOp × Except FileLockError Unit :=
  if lock.m_fd ≠ INVALID_FD then
    ([OsOp.flockUnlock lock.m_fd, OsOp.closeFd lock.m_fd, OsOp.removeFile lock.m_fileLockPath],
     if os.unlockFails || os.closeFails || os.removeFails then
       Except.error FileLockError.INTERNAL_LOGIC_ERROR
     else
       Except.ok ())
  else
    ([], Except.ok ())

/-- FileLock::~FileLock (file_lock.cpp lines 130-136): the destructor calls
closeFileDescriptor and only logs on failure; its observable OS behaviour is the
trace of attempted operations. -/
def FileLock.destructorOps (lock : FileLock) (os : CleanupOutcome) : List OsOp :=
  (lock.closeFileDescriptor os).1

/-- FileLock::operator=(FileLock&&) (file_lock.cpp lines 103-128).  FileLock
objects live at addresses; `heap` maps each address to its current value, and
address 0 models the null source reference the defensive check guards against
(the code compares (char*)&rhs + 1 against (char*)1, i.e. &rhs against null).
When the guard `this != &rhs && &rhs != null` passes, the destination first
releases its own lock via closeFileDescriptor, then takes over the source's
path and descriptor, and the source is invalidated.  Returns the updated heap
and the trace of attempted OS operations. -/
def moveAssign (heap : Nat → FileLock) (thisAddr rhsAddr : Nat) (os : CleanupOutcome) :
    (Nat → FileLock) × List OsOp :=
  if thisAddr ≠ rhsAddr ∧ rhsAddr ≠ 0 then
    (fun a =>
       if a = thisAddr then
         { m_fd := (heap rhsAddr).m_fd, m_fileLockPath := (heap rhsAddr).m_fileLockPath }
       else if a = rhsAddr then
         (heap rhsAddr).invalidate
       else
         heap a,
     ((heap thisAddr).closeFileDescriptor os).1)
  else
    (heap, [])

/-! ## FileLockBuilder::create -/

/-- Outcome of the iox_open call in FileLockBuilder::create. -/
inductive OpenOutcome
  | opened (fd : Int)
  | failed (errnum : Int)
deriving DecidableEq, Repr

/-- The environment-determined outcomes of one FileLockBuilder::create run:
validity of name and path (collaborator checks isValidFileName /
isValidPathToDirectory), the open outcome, the errno of the exclusive
non-blocking flock when it fails (none when the lock is acquired), and the
errno of the cleanup close in the lock-failure path (none when close works). -/
structure FileLockBuilderRun where
  nameIsValid : Bool
  pathIsValid : Bool
  openOutcome : OpenOutcome
  lockErrno : Option Int
  closeErrno : Option Int
deriving DecidableEq, Repr

/-- FileLockBuilder::create (file_lock.cpp lines 36-90) for an already-composed
lock-file path.  On open failure the translated open errno is returned; when
open succeeds but the exclusive non-blocking flock fails, the descriptor is
closed (its own failure only logged, never propagated) and the translated lock
errno is returned; otherwise the FileLock holding the descriptor and path is
produced.  Returns the trace of attempted OS operations and the result. -/
def FileLockBuilder.create (fileLockPath : String) (run : FileLockBuilderRun) :
    List OsOp × Except FileLockError FileLock :=
  if run.nameIsValid = false then
    ([], Except.error FileLockError.INVALID_FILE_NAME)
  else if run.pathIsValid = false then
    ([], Except.error FileLockError.INVALID_PATH)
  else
    match run.openOutcome with
    | OpenOutcome.failed e =>
      ([OsOp.openLockFile fileLockPath],
       Except.error (convertErrnoToFileLockError e fileLockPath))
    | OpenOutcome.opened fd =>
      match run.lockErrno with
      | some e =>
        ([OsOp.openLockFile fileLockPath, OsOp.flockExclusive fd, OsOp.closeFd fd],
         Except.error (convertErrnoToFileLockError e fileLockPath))
      | none =>
        ([OsOp.openLockFile fileLockPath, OsOp.flockExclusive fd],
         Except.ok (FileLock.mk fd fileLockPath))

/-- A concrete two-object heap: address 1 holds a valid lock, address 2 holds an
invalidated instance (sentinel descriptor, empty path); other addresses are
invalidated instances as well. -/
def heapWithInvalidSource : Nat → FileLock := fun a =>
  if a = 1 then FileLock.mk 3 "/tmp/x.lock" else FileLock.mk INVALID_FD ""

/-- A concrete two-object heap: address 1 holds a valid lock on fd 3, address 2
holds a valid lock on fd 7. -/
def heapTwoValidLocks : Nat → FileLock := fun a =>
  if a = 1 then FileLock.mk 3 "/tmp/x.lock" else
  if a = 2 then FileLock.mk 7 "/tmp/y.lock" else FileLock.mk INVALID_FD ""

/-! ## BumpAllocator and SharedMemoryObject -/

/-- Alignment helper: the smallest multiple of `alignment` that is at least
`value` (for alignment 0 the value itself). -/
def align (value alignment : Nat) : Nat :=
  if alignment = 0 then value else (value + alignment - 1) / alignment * alignment

/-- Modelled from the spec: the BumpAllocator implementation is not under src/
(shared_memory_object.cpp only constructs and calls it); its state
start/size/currentOffset and behaviour — monotonically carving aligned
sub-regions out of the mapped span, never freeing, with an out-of-space
condition — follow the spec's data model and component description. -/
structure BumpAllocator where
  start : Nat
  size : Nat
  currentOffset : Nat
deriving DecidableEq, Repr

/-- Modelled from the spec: BumpAllocator allocation.  The next allocation is
placed at the aligned position following currentOffset; when the aligned
position plus the requested size would exceed the span, the out-of-space
condition is reported (none) and the state is unchanged. -/
def BumpAllocator.allocate (s : BumpAllocator) (chunkSize alignment : Nat) :
    Option (Nat × BumpAllocator) :=
  if align (s.start + s.currentOffset) alignment - s.start + chunkSize ≤ s.size then
    some (s.start + (align (s.start + s.currentOffset) alignment - s.start),
          { s with currentOffset :=
              align (s.start + s.currentOffset) alignment - s.start + chunkSize })
  else
    none

/-- SharedMemoryAllocationError (error enumeration of SharedMemoryObject::allocate). -/
inductive SharedMemoryAllocationError
  | REQUESTED_ZERO_SIZED_MEMORY
  | REQUESTED_MEMORY_AFTER_FINALIZED_ALLOCATION
  | NOT_ENOUGH_MEMORY
deriving DecidableEq, Repr

/-- SharedMemoryObject data: cached size, owned bump allocator and the
allocation-finalized flag (members m_memorySizeInBytes, m_allocator,
m_allocationFinalized; the flag starts false on a freshly built object). -/
structure SharedMemoryObject where
  m_memorySizeInBytes : Nat
  m_allocator : BumpAllocator
  m_allocationFinalized : Bool
deriving DecidableEq, Repr

/-- SharedMemoryObject::allocate (shared_memory_object.cpp lines 169-191):
size 0 is rejected first with REQUESTED_ZERO_SIZED_MEMORY; then a finalized
object rejects with REQUESTED_MEMORY_AFTER_FINALIZED_ALLOCATION; otherwise the
call delegates to the bump allocator, translating its out-of-space condition to
NOT_ENOUGH_MEMORY.  Returns the result together with the (possibly updated)
object. -/
def SharedMemoryObject.allocate (s : SharedMemoryObject) (chunkSize alignment : Nat) :
    Except SharedMemoryAllocationError Nat × SharedMemoryObject :=
  if chunkSize = 0 then
    (Except.error SharedMemoryAllocationError.REQUESTED_ZERO_SIZED_MEMORY, s)
  else if s.m_allocationFinalized then
    (Except.error SharedMemoryAllocationError.REQUESTED_MEMORY_AFTER_FINALIZED_ALLOCATION, s)
  else
    match s.m_allocator.allocate chunkSize alignment with
    | none => (Except.error SharedMemoryAllocationError.NOT_ENOUGH_MEMORY, s)
    | some (p, a) => (Except.ok p, { s with m_allocator := a })

/-- SharedMemoryObject::finalizeAllocation (shared_memory_object.cpp lines
193-196): one-way transition of the allocation-finalized flag. -/
def SharedMemoryObject.finalizeAllocation (s : SharedMemoryObject) : SharedMemoryObject :=
  { s with m_allocationFinalized := true }

/-- Run a list of (size, alignment) allocation requests against an object,
collecting the granted allocations as (pointer, size, alignment) triples in
request order together with the final object state. -/
def runAllocs : SharedMemoryObject → List (Nat × Nat) →
    List (Nat × Nat × Nat) × SharedMemoryObject
  | s, [] => ([], s)
  | s, (sz, al) :: rest =>
    match (s.allocate sz al).1 with
    | Except.ok p =>
      ((p, sz, al) :: (runAllocs (s.allocate sz al).2 rest).1,
       (runAllocs (s.allocate sz al).2 rest).2)
    | Except.error _ => runAllocs (s.allocate sz al).2 rest

/-! ## SharedMemoryObjectBuilder::create -/

/-- SharedMemoryObjectError (error enumeration of SharedMemoryObjectBuilder). -/
inductive SharedMemoryObjectError
  | SHARED_MEMORY_CREATION_FAILED
  | MAPPING_SHARED_MEMORY_FAILED
  | INTERNAL_LOGIC_FAILURE
deriving DecidableEq, Repr

/-- Observable events of one SharedMemoryObjectBuilder::create run and of the
temporary SIGBUS handler. -/
inductive CreateEvent
  | acquireSigbusMutex
  | registerSigbusHandler
  | formatSigbusMessage
  | memsetZero
  | unregisterSigbusHandler
  | writeBufferToStderr
  | exitProcess
deriving DecidableEq, Repr

/-- memsetSigbusHandler (shared_memory_object.cpp lines 47-53): the installed
SIGBUS handler only writes the pre-formatted buffer to stderr and terminates
the process; it performs no formatting. -/
def memsetSigbusHandler : List CreateEvent :=
  [CreateEvent.writeBufferToStderr, CreateEvent.exitProcess]

/-- The environment-determined outcomes of one SharedMemoryObjectBuilder::create
run: whether the SharedMemory and MemoryMap collaborators fail, whether this
call owns the segment, the platform constant IOX_SHM_WRITE_ZEROS_ON_CREATION,
and whether registering the temporary SIGBUS handler fails. -/
structure SharedMemoryObjectBuilderRun where
  sharedMemoryCreateFails : Bool
  memoryMapFails : Bool
  hasOwnership : Bool
  writeZerosOnCreation : Bool
  registerSigbusHandlerFails : Bool
deriving DecidableEq, Repr

/-- SharedMemoryObjectBuilder::create (shared_memory_object.cpp lines 58-156).
SharedMemory failure yields SHARED_MEMORY_CREATION_FAILED; MemoryMap failure
yields MAPPING_SHARED_MEMORY_FAILED; then a BumpAllocator is attached over the
mapped span, and when this call owns the segment and the platform requires
zero-initialized shared memory, the code takes the process-wide mutex,
registers the temporary SIGBUS handler (returning INTERNAL_LOGIC_FAILURE if
that fails, without zero-filling), formats the diagnostic message into the
process-wide buffer, zero-fills the region and (via the guard going out of
scope) unregisters the handler.  Returns the event trace and the result. -/
def SharedMemoryObjectBuilder.create (baseAddress memorySizeInBytes : Nat)
    (run : SharedMemoryObjectBuilderRun) :
    List CreateEvent × Except SharedMemoryObjectError SharedMemoryObject :=
  if run.sharedMemoryCreateFails then
    ([], Except.error SharedMemoryObjectError.SHARED_MEMORY_CREATION_FAILED)
  else if run.memoryMapFails then
    ([], Except.error SharedMemoryObjectError.MAPPING_SHARED_MEMORY_FAILED)
  else
    let obj : SharedMemoryObject :=
      { m_memorySizeInBytes := memorySizeInBytes,
        m_allocator := { start := baseAddress, size := memorySizeInBytes, currentOffset := 0 },
        m_allocationFinalized := false }
    if run.hasOwnership ∧ run.writeZerosOnCreation then
      if run.registerSigbusHandlerFails then
        ([CreateEvent.acquireSigbusMutex, CreateEvent.registerSigbusHandler],
         Except.error SharedMemoryObjectError.INTERNAL_LOGIC_FAILURE)
      else
        ([CreateEvent.acquireSigbusMutex, CreateEvent.registerSigbusHandler,
          CreateEvent.formatSigbusMessage, CreateEvent.memsetZero,
          CreateEvent.unregisterSigbusHandler],
         Except.ok obj)
    else
      ([], Except.ok obj)

/-- Index of the first occurrence of an event in a trace (length of the trace
when the event is absent). -/
def firstIndex : List CreateEvent → CreateEvent → Nat
  | [], _ => 0
  | x :: xs, e => if x = e then 0 else firstIndex xs e + 1

/-- One event occurs (strictly) before another in a trace. -/
def occursBefore (x y : CreateEvent) (events : List CreateEvent) : Prop :=
  x ∈ events ∧ y ∈ events ∧ firstIndex events x < firstIndex events y

instance (x y : CreateEvent) (events : List CreateEvent) :
    Decidable (occursBefore x y events) := by
  unfold occursBefore
  infer_instance

end Iox

namespace Iox

/-- C9: convertErrnoToFileLockError is a deterministic, total function on OS error
codes: it always returns a member of the closed FileLockError enumeration (it is a
total Lean function into that type), the same errnum yields the same error value
regardless of the path argument, and every errnum not explicitly mapped by the
switch returns INTERNAL_LOGIC_ERROR. -/
theorem convertErrno_total_deterministic (errnum : Int) (p q : String) :
    convertErrnoToFileLockError errnum p = convertErrnoToFileLockError errnum q
    ∧ (errnum ∉ mappedErrnos →
        convertErrnoToFileLockError errnum p = FileLockError.INTERNAL_LOGIC_ERROR) := by
  constructor
  · rfl
  · intro h
    simp only [mappedErrnos, List.mem_cons, List.not_mem_nil, or_false, not_or] at h
    obtain ⟨h1, h2, h3, h4, h5, h6, h7, h8, h9, h10, h11, h12, h13, h14, h15, h16, h17,
      h18, h19, h20⟩ := h
    unfold convertErrnoToFileLockError
    simp [h1, h2, h3, h4, h5, h6, h7, h8, h9, h10, h11, h12, h13, h14, h15, h16, h17,
      h18, h19, h20]

/-- Witness for C9 at concrete inputs: errnum 99 is unmapped and yields
INTERNAL_LOGIC_ERROR; the value at EWOULDBLOCK does not depend on the path. -/
theorem convertErrno_total_deterministic_witness :
    convertErrnoToFileLockError 99 "/tmp/a.lock" = FileLockError.INTERNAL_LOGIC_ERROR
    ∧ convertErrnoToFileLockError 11 "/tmp/a.lock" = convertErrnoToFileLockError 11 "/tmp/b.lock" :=
  ⟨(convertErrno_total_deterministic 99 "/tmp/a.lock" "/tmp/b.lock").2 (by decide),
   (convertErrno_total_deterministic 11 "/tmp/a.lock" "/tmp/b.lock").1⟩

/-- C4: FileLock release (closeFileDescriptor) on a valid descriptor attempts all
three cleanup steps — unlock, close, delete the lock file — in that order and
regardless of earlier failures (the trace is independent of the outcomes), returns
INTERNAL_LOGIC_ERROR exactly when some step failed and success exactly when all
three succeeded; on an invalidated instance it performs no step and succeeds. -/
theorem closeFileDescriptor_best_effort (lock : FileLock) (os : CleanupOutcome) :
    (lock.m_fd ≠ INVALID_FD →
      (lock.closeFileDescriptor os).1 =
        [OsOp.flockUnlock lock.m_fd, OsOp.closeFd lock.m_fd,
         OsOp.removeFile lock.m_fileLockPath]
      ∧ ((lock.closeFileDescriptor os).2 = Except.error FileLockError.INTERNAL_LOGIC_ERROR ↔
          (os.unlockFails = true ∨ os.closeFails = true ∨ os.removeFails = true))
      ∧ ((lock.closeFileDescriptor os).2 = Except.ok () ↔
          (os.unlockFails = false ∧ os.closeFails = false ∧ os.removeFails = false)))
    ∧ (lock.m_fd = INVALID_FD → lock.closeFileDescriptor os = ([], Except.ok ())) := by
  obtain ⟨u, c, r⟩ := os
  constructor
  · intro h
    unfold FileLock.closeFileDescriptor
    rw [if_pos h]
    cases u <;> cases c <;> cases r <;> simp
  · intro h
    unfold FileLock.closeFileDescriptor
    rw [if_neg (by simp [h])]

/-- Witness for C4: a valid lock with a failing remove step yields the full trace
and INTERNAL_LOGIC_ERROR; an invalidated lock does nothing and succeeds. -/
theorem closeFileDescriptor_best_effort_witness :
    ((FileLock.mk 3 "/tmp/a.lock").closeFileDescriptor
        { unlockFails := false, closeFails := false, removeFails := true }).2 =
      Except.error FileLockError.INTERNAL_LOGIC_ERROR
    ∧ (FileLock.mk INVALID_FD "").closeFileDescriptor cleanupAllOk = ([], Except.ok ()) :=
  ⟨(((closeFileDescriptor_best_effort (FileLock.mk 3 "/tmp/a.lock")
        { unlockFails := false, closeFails := false, removeFails := true }).1
      (by decide)).2.1).2 (Or.inr (Or.inr rfl)),
   (closeFileDescriptor_best_effort (FileLock.mk INVALID_FD "") cleanupAllOk).2 rfl⟩

/-- C3 counterexample: moving from an invalidated (sentinel-descriptor,
empty-path) source at a non-null address does NOT leave both objects unchanged,
contrary to the claim: the destination's own lock is released (unlock, close,
remove are issued) and the destination itself becomes invalidated. -/
theorem moveFromInvalidatedSource_changes_destination :
    (moveAssign heapWithInvalidSource 1 2 cleanupAllOk).1 1 ≠ heapWithInvalidSource 1
    ∧ (moveAssign heapWithInvalidSource 1 2 cleanupAllOk).2 =
        [OsOp.flockUnlock 3, OsOp.closeFd 3, OsOp.removeFile "/tmp/x.lock"] := by
  constructor
  · decide
  · decide

/-- C3 (amended): moving a FileLock transfers the held lock exactly once — after a
move between distinct addresses with a non-null source, the moved-from instance is
invalidated (sentinel descriptor, empty path) and its subsequent destruction
performs no OS operation, while the moved-to instance's destruction releases the
lock and deletes the file; a self-move or a move from a null (uninitialized)
source reference leaves the heap unchanged and performs no OS operation.  A move
from an invalidated non-null source, however, releases the destination's existing
lock and leaves the destination invalidated. -/
theorem fileLock_move_transfers_lock_once (heap : Nat → FileLock)
    (thisAddr rhsAddr : Nat) (os osd : CleanupOutcome)
    (hne : thisAddr ≠ rhsAddr) (hnn : rhsAddr ≠ 0) :
    ((moveAssign heap thisAddr rhsAddr os).1 rhsAddr = FileLock.mk INVALID_FD ""
      ∧ FileLock.destructorOps ((moveAssign heap thisAddr rhsAddr os).1 rhsAddr) osd = []
      ∧ ((heap rhsAddr).m_fd ≠ INVALID_FD →
          FileLock.destructorOps ((moveAssign heap thisAddr rhsAddr os).1 thisAddr) osd =
            [OsOp.flockUnlock (heap rhsAddr).m_fd, OsOp.closeFd (heap rhsAddr).m_fd,
             OsOp.removeFile (heap rhsAddr).m_fileLockPath])
      ∧ ((heap rhsAddr).m_fd = INVALID_FD →
          ((moveAssign heap thisAddr rhsAddr os).1 thisAddr).m_fd = INVALID_FD
          ∧ (moveAssign heap thisAddr rhsAddr os).2 =
              ((heap thisAddr).closeFileDescriptor os).1))
    ∧ (∀ a, moveAssign heap a a os = (heap, []))
    ∧ (∀ t, moveAssign heap t 0 os = (heap, [])) := by
  have hrt : rhsAddr ≠ thisAddr := Ne.symm hne
  refine ⟨?_, ?_, ?_⟩
  · simp only [moveAssign, if_pos (And.intro hne hnn)]
    refine ⟨?_, ?_, ?_, ?_⟩
    · simp [hrt, FileLock.invalidate]
    · simp [hrt, FileLock.invalidate, FileLock.destructorOps, FileLock.closeFileDescriptor]
    · intro hv
      simp [FileLock.destructorOps, FileLock.closeFileDescriptor, hv]
    · intro hv
      simp [hv]
  · intro a
    unfold moveAssign
    rw [if_neg (by simp)]
  · intro t
    unfold moveAssign
    rw [if_neg (by simp)]

/-- Witness for amended C3 at the concrete heap: moving address 2's lock into
address 1 invalidates address 2 (whose destruction then performs no OS
operation), and the moved-to instance's destruction issues unlock/close/remove
for the transferred lock. -/
theorem fileLock_move_transfers_lock_once_witness :
    (moveAssign heapTwoValidLocks 1 2 cleanupAllOk).1 2 = FileLock.mk INVALID_FD ""
    ∧ FileLock.destructorOps ((moveAssign heapTwoValidLocks 1 2 cleanupAllOk).1 2)
        cleanupAllOk = []
    ∧ FileLock.destructorOps ((moveAssign heapTwoValidLocks 1 2 cleanupAllOk).1 1)
        cleanupAllOk =
      [OsOp.flockUnlock 7, OsOp.closeFd 7, OsOp.removeFile "/tmp/y.lock"] := by
  have h := (fileLock_move_transfers_lock_once heapTwoValidLocks 1 2 cleanupAllOk
    cleanupAllOk (by decide) (by decide)).1
  exact ⟨h.1, h.2.1, h.2.2.1 (by decide)⟩

/-- C5: in FileLockBuilder::create, when open succeeds but the exclusive
non-blocking lock fails, the descriptor is closed before returning (the trace ends
with the close of that descriptor), the returned error is the translation of the
lock failure's errno — independent of whether the cleanup close itself fails — and
an EWOULDBLOCK lock failure yields LOCKED_BY_OTHER_PROCESS. -/
theorem fileLockBuilder_lock_failure_path (p : String) (run : FileLockBuilderRun)
    (fd e : Int) (hn : run.nameIsValid = true) (hp : run.pathIsValid = true)
    (ho : run.openOutcome = OpenOutcome.opened fd) (hl : run.lockErrno = some e) :
    (FileLockBuilder.create p run).1 =
      [OsOp.openLockFile p, OsOp.flockExclusive fd, OsOp.closeFd fd]
    ∧ (FileLockBuilder.create p run).2 =
        Except.error (convertErrnoToFileLockError e p)
    ∧ (∀ c, (FileLockBuilder.create p { run with closeErrno := c }).2 =
        (FileLockBuilder.create p run).2)
    ∧ (e = EWOULDBLOCK →
        (FileLockBuilder.create p run).2 =
          Except.error FileLockError.LOCKED_BY_OTHER_PROCESS) := by
  unfold FileLockBuilder.create
  rw [hn, hp, ho, hl]
  exact ⟨rfl, rfl, fun c => rfl, fun he => by subst he; rfl⟩

/-! ## Allocator lemmas -/

lemma align_ge (v a : Nat) : v ≤ align v a := by
  unfold align
  by_cases h : a = 0
  · simp [h]
  · rw [if_neg h]
    have ha : 0 < a := Nat.pos_of_ne_zero h
    have h1 : (v + a - 1) / a * a + (v + a - 1) % a = v + a - 1 :=
      Nat.div_add_mod' (v + a - 1) a
    have h2 : (v + a - 1) % a < a := Nat.mod_lt _ ha
    generalize hq : (v + a - 1) / a * a = Q at *
    generalize hr : (v + a - 1) % a = R at *
    omega

lemma align_dvd (v a : Nat) (h : a ≠ 0) : a ∣ align v a := by
  unfold align
  rw [if_neg h]
  exact dvd_mul_left a _

/-- Everything a successful BumpAllocator.allocate guarantees: the returned
pointer starts at or after the current fill level, ends exactly at the new fill
level, stays within the span, respects the alignment, and the offset only
grows; start and size are untouched. -/
lemma BumpAllocator.allocate_some_spec {s : BumpAllocator} {sz al p : Nat}
    {s' : BumpAllocator} (h : s.allocate sz al = some (p, s')) :
    s.start + s.currentOffset ≤ p
    ∧ p + sz = s'.start + s'.currentOffset
    ∧ s'.start = s.start
    ∧ s'.size = s.size
    ∧ p + sz ≤ s.start + s.size
    ∧ s.currentOffset ≤ s'.currentOffset
    ∧ (al ≠ 0 → al ∣ p) := by
  have hA : s.start + s.currentOffset ≤ align (s.start + s.currentOffset) al :=
    align_ge _ _
  have hD : al ≠ 0 → al ∣ align (s.start + s.currentOffset) al :=
    fun h0 => align_dvd _ _ h0
  unfold BumpAllocator.allocate at h
  generalize hAe : align (s.start + s.currentOffset) al = A at *
  split at h
  case isTrue hcond =>
    simp only [Option.some.injEq, Prod.mk.injEq] at h
    obtain ⟨hp, hs'⟩ := h
    subst hp
    subst hs'
    refine ⟨by omega, by simp only; omega, rfl, rfl, by omega, by simp only; omega, ?_⟩
    intro h0
    have hA' : s.start + (A - s.start) = A := by omega
    rw [hA']
    exact hD h0
  case isFalse => exact absurd h (by simp)

/-- A failing BumpAllocator.allocate reports out-of-space exactly when the
aligned position plus the request exceeds the span, and it occurs whenever the
current offset plus the request already exceeds the span. -/
lemma BumpAllocator.allocate_none_of_overflow {s : BumpAllocator} {sz al : Nat}
    (h : s.size < s.currentOffset + sz) : s.allocate sz al = none := by
  have hA : s.start + s.currentOffset ≤ align (s.start + s.currentOffset) al :=
    align_ge _ _
  unfold BumpAllocator.allocate
  rw [if_neg (by omega)]

/-- SharedMemoryObject.allocate never changes start or size of the underlying
allocator, never lowers its offset, and never changes m_allocationFinalized. -/
lemma SharedMemoryObject.allocate_preserves (s : SharedMemoryObject)
    (sz al : Nat) :
    (s.allocate sz al).2.m_allocator.start = s.m_allocator.start
    ∧ (s.allocate sz al).2.m_allocator.size = s.m_allocator.size
    ∧ s.m_allocator.currentOffset ≤ (s.allocate sz al).2.m_allocator.currentOffset
    ∧ (s.allocate sz al).2.m_allocationFinalized = s.m_allocationFinalized := by
  unfold SharedMemoryObject.allocate
  split
  · exact ⟨rfl, rfl, le_refl _, rfl⟩
  · split
    · exact ⟨rfl, rfl, le_refl _, rfl⟩
    · rcases hb : s.m_allocator.allocate sz al with _ | ⟨p, a⟩
      · exact ⟨rfl, rfl, le_refl _, rfl⟩
      · have hspec := BumpAllocator.allocate_some_spec hb
        exact ⟨hspec.2.2.1, hspec.2.2.2.1, hspec.2.2.2.2.2.1, rfl⟩

/-- Everything a successful SharedMemoryObject.allocate guarantees, in terms of
the pre- and post-state allocators. -/
lemma SharedMemoryObject.allocate_ok_spec {s : SharedMemoryObject}
    {sz al p : Nat} {s' : SharedMemoryObject}
    (h : s.allocate sz al = (Except.ok p, s')) :
    s.m_allocator.start + s.m_allocator.currentOffset ≤ p
    ∧ p + sz = s'.m_allocator.start + s'.m_allocator.currentOffset
    ∧ s'.m_allocator.start = s.m_allocator.start
    ∧ s'.m_allocator.size = s.m_allocator.size
    ∧ p + sz ≤ s.m_allocator.start + s.m_allocator.size
    ∧ (al ≠ 0 → al ∣ p) := by
  unfold SharedMemoryObject.allocate at h
  split at h
  · simp at h
  · split at h
    · simp at h
    · rcases hb : s.m_allocator.allocate sz al with _ | ⟨q, a⟩
      · rw [hb] at h
        simp at h
      · rw [hb] at h
        simp only [Prod.mk.injEq, Except.ok.injEq] at h
        obtain ⟨hq, hs'⟩ := h
        subst hq
        subst hs'
        have hspec := BumpAllocator.allocate_some_spec hb
        exact ⟨hspec.1, hspec.2.1, hspec.2.2.1, hspec.2.2.2.1, hspec.2.2.2.2.1,
          hspec.2.2.2.2.2.2⟩

/-- A failing SharedMemoryObject.allocate leaves the object unchanged. -/
lemma SharedMemoryObject.allocate_error_state {s : SharedMemoryObject}
    {sz al : Nat} {e : SharedMemoryAllocationError} {s' : SharedMemoryObject}
    (h : s.allocate sz al = (Except.error e, s')) : s' = s := by
  unfold SharedMemoryObject.allocate at h
  split at h
  · exact ((Prod.ext_iff.mp h).2).symm
  · split at h
    · exact ((Prod.ext_iff.mp h).2).symm
    · rcases hb : s.m_allocator.allocate sz al with _ | ⟨q, a⟩
      · rw [hb] at h
        exact ((Prod.ext_iff.mp h).2).symm
      · rw [hb] at h
        simp at h

/-- C1: for every SharedMemoryObject state (fresh, partially allocated, or after
finalizeAllocation — the object argument is universally quantified, so all
states including finalized ones are covered) and every alignment, allocate(0,
alignment) returns REQUESTED_ZERO_SIZED_MEMORY and leaves the object
unchanged. -/
theorem allocate_zero_size_always_rejected (s : SharedMemoryObject)
    (alignment : Nat) :
    s.allocate 0 alignment =
      (Except.error SharedMemoryAllocationError.REQUESTED_ZERO_SIZED_MEMORY, s) := by
  unfold SharedMemoryObject.allocate
  rw [if_pos rfl]

/-- C2 counterexample: after finalizeAllocation, an allocate call with size 0
does NOT fail with REQUESTED_MEMORY_AFTER_FINALIZED_ALLOCATION as the claim
states for every size; the size-0 check runs first and the call returns
REQUESTED_ZERO_SIZED_MEMORY instead. -/
theorem allocate_zero_after_finalize_not_finalized_error :
    ((SharedMemoryObject.mk 16 (BumpAllocator.mk 0 16 0) false).finalizeAllocation.allocate
        0 8).1 ≠
      Except.error SharedMemoryAllocationError.REQUESTED_MEMORY_AFTER_FINALIZED_ALLOCATION
    ∧ ((SharedMemoryObject.mk 16 (BumpAllocator.mk 0 16 0) false).finalizeAllocation.allocate
        0 8).1 =
      Except.error SharedMemoryAllocationError.REQUESTED_ZERO_SIZED_MEMORY := by
  constructor
  · intro h
    exact absurd (Except.error.inj h) (by decide)
  · rfl

/-- C2 (amended): after finalizeAllocation, every subsequent allocate call with
nonzero size fails with REQUESTED_MEMORY_AFTER_FINALIZED_ALLOCATION and leaves
the object — and hence every previously returned allocation — undisturbed (a
size-0 call instead returns REQUESTED_ZERO_SIZED_MEMORY, also without state
change). -/
theorem allocate_after_finalize_rejected (s : SharedMemoryObject)
    (chunkSize alignment : Nat) (hs : chunkSize ≠ 0) :
    s.finalizeAllocation.allocate chunkSize alignment =
      (Except.error SharedMemoryAllocationError.REQUESTED_MEMORY_AFTER_FINALIZED_ALLOCATION,
       s.finalizeAllocation) := by
  unfold SharedMemoryObject.allocate
  rw [if_neg hs,
    if_pos (show s.finalizeAllocation.m_allocationFinalized = true from rfl)]

/-- Witness for amended C2 at a concrete finalized object and request. -/
theorem allocate_after_finalize_rejected_witness :
    (SharedMemoryObject.mk 16 (BumpAllocator.mk 0 16 0) false).finalizeAllocation.allocate
        8 4 =
      (Except.error SharedMemoryAllocationError.REQUESTED_MEMORY_AFTER_FINALIZED_ALLOCATION,
       (SharedMemoryObject.mk 16 (BumpAllocator.mk 0 16 0) false).finalizeAllocation) :=
  allocate_after_finalize_rejected (SharedMemoryObject.mk 16 (BumpAllocator.mk 0 16 0) false)
    8 4 (by decide)

/-- C7: once the cumulative bytes requested through allocate exceed the
remaining capacity of the region (the allocator's fill level plus the new
request exceeds the span), a non-finalized allocate call with nonzero size
returns NOT_ENOUGH_MEMORY — the bump allocator's out-of-space condition
translated — and leaves the object, and hence every previously returned
allocation, undisturbed. -/
theorem allocate_out_of_space (s : SharedMemoryObject) (chunkSize alignment : Nat)
    (hs : chunkSize ≠ 0) (hf : s.m_allocationFinalized = false)
    (hover : s.m_allocator.size < s.m_allocator.currentOffset + chunkSize) :
    s.allocate chunkSize alignment =
      (Except.error SharedMemoryAllocationError.NOT_ENOUGH_MEMORY, s) := by
  unfold SharedMemoryObject.allocate
  rw [if_neg hs, if_neg (by rw [hf]; exact Bool.false_ne_true),
    BumpAllocator.allocate_none_of_overflow hover]

/-- Witness for C7: a 16-byte region with 12 bytes already carved rejects an
8-byte request with NOT_ENOUGH_MEMORY and is unchanged. -/
theorem allocate_out_of_space_witness :
    (SharedMemoryObject.mk 16 (BumpAllocator.mk 0 16 12) false).allocate 8 4 =
      (Except.error SharedMemoryAllocationError.NOT_ENOUGH_MEMORY,
       SharedMemoryObject.mk 16 (BumpAllocator.mk 0 16 12) false) :=
  allocate_out_of_space (SharedMemoryObject.mk 16 (BumpAllocator.mk 0 16 12) false)
    8 4 (by decide) rfl (by decide)

/-- Master invariant of runAllocs: every granted allocation starts at or after
the initial fill level, ends within the span, stems from one of the requests
and respects its alignment; granted allocations are pairwise ordered without
overlap; start and size of the allocator are preserved and its offset is
monotonically non-decreasing. -/
lemma runAllocs_spec (s : SharedMemoryObject) (reqs : List (Nat × Nat)) :
    (∀ g ∈ (runAllocs s reqs).1,
       s.m_allocator.start + s.m_allocator.currentOffset ≤ g.1
       ∧ g.1 + g.2.1 ≤ s.m_allocator.start + s.m_allocator.size
       ∧ (g.2.1, g.2.2) ∈ reqs
       ∧ (g.2.2 ≠ 0 → g.2.2 ∣ g.1))
    ∧ List.Pairwise (fun x y => x.1 + x.2.1 ≤ y.1) (runAllocs s reqs).1
    ∧ (runAllocs s reqs).2.m_allocator.start = s.m_allocator.start
    ∧ (runAllocs s reqs).2.m_allocator.size = s.m_allocator.size
    ∧ s.m_allocator.currentOffset ≤ (runAllocs s reqs).2.m_allocator.currentOffset := by
  induction reqs generalizing s with
  | nil => simp [runAllocs]
  | cons hd rest ih =>
    obtain ⟨sz, al⟩ := hd
    rcases hres : s.allocate sz al with ⟨res, s1⟩
    have hpres := SharedMemoryObject.allocate_preserves s sz al
    rw [hres] at hpres
    cases res with
    | error e =>
      have hs1 : s1 = s := SharedMemoryObject.allocate_error_state hres
      have hstep : runAllocs s ((sz, al) :: rest) = runAllocs s rest := by
        simp only [runAllocs, hres, hs1]
      rw [hstep]
      obtain ⟨ihmem, ihpw, ihst, ihsz, ihoff⟩ := ih s
      refine ⟨?_, ihpw, ihst, ihsz, ihoff⟩
      intro g hg
      obtain ⟨h1, h2, h3, h4⟩ := ihmem g hg
      exact ⟨h1, h2, List.mem_cons_of_mem _ h3, h4⟩
    | ok p =>
      obtain ⟨hlb, heq, hst, hsz, hub, hdvd⟩ := SharedMemoryObject.allocate_ok_spec hres
      have hoff : s.m_allocator.currentOffset ≤ s1.m_allocator.currentOffset :=
        hpres.2.2.1
      have hstep : runAllocs s ((sz, al) :: rest) =
          ((p, sz, al) :: (runAllocs s1 rest).1, (runAllocs s1 rest).2) := by
        simp only [runAllocs, hres]
      rw [hstep]
      obtain ⟨ihmem, ihpw, ihst, ihsz, ihoff⟩ := ih s1
      refine ⟨?_, ?_, ?_, ?_, ?_⟩
      · intro g hg
        rcases List.mem_cons.mp hg with hg | hg
        · subst hg
          exact ⟨hlb, hub, List.mem_cons_self _ _, hdvd⟩
        · obtain ⟨h1, h2, h3, h4⟩ := ihmem g hg
          rw [hst] at h1 h2
          rw [hsz] at h2
          refine ⟨?_, h2, List.mem_cons_of_mem _ h3, h4⟩
          omega
      · refine List.Pairwise.cons ?_ ihpw
        intro g hg
        have h1 := (ihmem g hg).1
        rw [hst] at h1
        show p + sz ≤ g.1
        omega
      · rw [ihst, hst]
      · rw [ihsz, hsz]
      · exact le_trans hoff ihoff

/-- C8: for every sequence of allocations from one SharedMemoryObject (with
well-formed, nonzero alignments), successful allocations never overlap — every
later granted pointer is at least the earlier pointer plus its size, with any
alignment padding in between — every returned pointer satisfies its requested
alignment, every allocated range lies within the region [base, base + size),
and the allocator's current offset is monotonically non-decreasing across all
operations. -/
theorem sequential_allocations_sound (s : SharedMemoryObject)
    (reqs : List (Nat × Nat)) (ha : ∀ r ∈ reqs, r.2 ≠ 0) :
    List.Pairwise (fun x y => x.1 + x.2.1 ≤ y.1) (runAllocs s reqs).1
    ∧ (∀ g ∈ (runAllocs s reqs).1,
        g.2.2 ∣ g.1
        ∧ s.m_allocator.start ≤ g.1
        ∧ g.1 + g.2.1 ≤ s.m_allocator.start + s.m_allocator.size)
    ∧ s.m_allocator.currentOffset ≤ (runAllocs s reqs).2.m_allocator.currentOffset := by
  obtain ⟨hmem, hpw, hst, hsz, hoff⟩ := runAllocs_spec s reqs
  refine ⟨hpw, ?_, hoff⟩
  intro g hg
  obtain ⟨h1, h2, h3, h4⟩ := hmem g hg
  refine ⟨h4 (ha _ h3), ?_, h2⟩
  omega

/-- Witness for C8: a concrete run of four requests (one of which overflows the
region and is rejected) satisfies non-overlap, alignment and in-bounds. -/
theorem sequential_allocations_sound_witness :
    List.Pairwise (fun x y => x.1 + x.2.1 ≤ y.1)
      (runAllocs (SharedMemoryObject.mk 32 (BumpAllocator.mk 100 32 0) false)
        [(8, 4), (5, 8), (100, 4), (7, 2)]).1
    ∧ (∀ g ∈ (runAllocs (SharedMemoryObject.mk 32 (BumpAllocator.mk 100 32 0) false)
        [(8, 4), (5, 8), (100, 4), (7, 2)]).1,
        g.2.2 ∣ g.1 ∧ 100 ≤ g.1 ∧ g.1 + g.2.1 ≤ 100 + 32) := by
  have h := sequential_allocations_sound
    (SharedMemoryObject.mk 32 (BumpAllocator.mk 100 32 0) false)
    [(8, 4), (5, 8), (100, 4), (7, 2)] (by decide)
  exact ⟨h.1, h.2.1⟩

/-- C6 counterexample: in a run of the zero-fill path (ownership, platform
zero-initialization required, handler registration succeeding), the diagnostic
message is NOT formatted before the SIGBUS handler is installed — the code
installs the handler first (line 123) and formats afterwards (line 134). -/
theorem sigbus_format_not_before_install :
    ¬ occursBefore CreateEvent.formatSigbusMessage CreateEvent.registerSigbusHandler
      (SharedMemoryObjectBuilder.create 0 16
        { sharedMemoryCreateFails := false, memoryMapFails := false,
          hasOwnership := true, writeZerosOnCreation := true,
          registerSigbusHandlerFails := false }).1 := by
  decide

/-- C6 (amended): whenever the zero-fill path runs, the event order is acquire
the process-wide mutex, install the SIGBUS handler, format the diagnostic
message into the process-wide pre-sized signal-safe buffer, zero-fill, remove
the handler: the formatting happens after the handler is installed but before
the zero-fill that could raise SIGBUS, and no formatting happens inside the
handler itself. -/
theorem sigbus_format_after_install_before_memset (base sizeInBytes : Nat)
    (run : SharedMemoryObjectBuilderRun)
    (h1 : run.sharedMemoryCreateFails = false) (h2 : run.memoryMapFails = false)
    (h3 : run.hasOwnership = true) (h4 : run.writeZerosOnCreation = true)
    (h5 : run.registerSigbusHandlerFails = false) :
    (SharedMemoryObjectBuilder.create base sizeInBytes run).1 =
      [CreateEvent.acquireSigbusMutex, CreateEvent.registerSigbusHandler,
       CreateEvent.formatSigbusMessage, CreateEvent.memsetZero,
       CreateEvent.unregisterSigbusHandler]
    ∧ occursBefore CreateEvent.registerSigbusHandler CreateEvent.formatSigbusMessage
        (SharedMemoryObjectBuilder.create base sizeInBytes run).1
    ∧ occursBefore CreateEvent.formatSigbusMessage CreateEvent.memsetZero
        (SharedMemoryObjectBuilder.create base sizeInBytes run).1
    ∧ CreateEvent.formatSigbusMessage ∉ memsetSigbusHandler := by
  have htr : (SharedMemoryObjectBuilder.create base sizeInBytes run).1 =
      [CreateEvent.acquireSigbusMutex, CreateEvent.registerSigbusHandler,
       CreateEvent.formatSigbusMessage, CreateEvent.memsetZero,
       CreateEvent.unregisterSigbusHandler] := by
    unfold SharedMemoryObjectBuilder.create
    rw [h1, h2, h3, h4, h5]
    simp
  refine ⟨htr, ?_, ?_, by decide⟩
  · rw [htr]
    decide
  · rw [htr]
    decide

/-- Witness for amended C6 at a concrete zero-fill run. -/
theorem sigbus_format_after_install_before_memset_witness :
    occursBefore CreateEvent.registerSigbusHandler CreateEvent.formatSigbusMessage
      (SharedMemoryObjectBuilder.create 0 16
        { sharedMemoryCreateFails := false, memoryMapFails := false,
          hasOwnership := true, writeZerosOnCreation := true,
          registerSigbusHandlerFails := false }).1
    ∧ occursBefore CreateEvent.formatSigbusMessage CreateEvent.memsetZero
      (SharedMemoryObjectBuilder.create 0 16
        { sharedMemoryCreateFails := false, memoryMapFails := false,
          hasOwnership := true, writeZerosOnCreation := true,
          registerSigbusHandlerFails := false }).1 := by
  have h := sigbus_format_after_install_before_memset 0 16
    { sharedMemoryCreateFails := false, memoryMapFails := false,
      hasOwnership := true, writeZerosOnCreation := true,
      registerSigbusHandlerFails := false } rfl rfl rfl rfl rfl
  exact ⟨h.2.1, h.2.2.1⟩

/-- C10: when this call owns the segment, the platform requires zero-initialized
shared memory, and installing the temporary SIGBUS handler fails (with the two
wrapper steps succeeding), SharedMemoryObjectBuilder::create returns
INTERNAL_LOGIC_FAILURE — not SHARED_MEMORY_CREATION_FAILED and not
MAPPING_SHARED_MEMORY_FAILED — and the zero-fill is not performed. -/
theorem create_sigbus_register_failure (base sizeInBytes : Nat)
    (run : SharedMemoryObjectBuilderRun)
    (h1 : run.sharedMemoryCreateFails = false) (h2 : run.memoryMapFails = false)
    (h3 : run.hasOwnership = true) (h4 : run.writeZerosOnCreation = true)
    (h5 : run.registerSigbusHandlerFails = true) :
    (SharedMemoryObjectBuilder.create base sizeInBytes run).2 =
      Except.error SharedMemoryObjectError.INTERNAL_LOGIC_FAILURE
    ∧ CreateEvent.memsetZero ∉ (SharedMemoryObjectBuilder.create base sizeInBytes run).1
    ∧ (SharedMemoryObjectBuilder.create base sizeInBytes run).2 ≠
        Except.error SharedMemoryObjectError.SHARED_MEMORY_CREATION_FAILED
    ∧ (SharedMemoryObjectBuilder.create base sizeInBytes run).2 ≠
        Except.error SharedMemoryObjectError.MAPPING_SHARED_MEMORY_FAILED := by
  have hc : SharedMemoryObjectBuilder.create base sizeInBytes run =
      ([CreateEvent.acquireSigbusMutex, CreateEvent.registerSigbusHandler],
       Except.error SharedMemoryObjectError.INTERNAL_LOGIC_FAILURE) := by
    unfold SharedMemoryObjectBuilder.create
    rw [h1, h2, h3, h4, h5]
    simp
  rw [hc]
  exact ⟨rfl, by decide, by simp, by simp⟩

/-- Witness for C10 at a concrete run with a failing handler registration. -/
theorem create_sigbus_register_failure_witness :
    (SharedMemoryObjectBuilder.create 0 16
      { sharedMemoryCreateFails := false, memoryMapFails := false,
        hasOwnership := true, writeZerosOnCreation := true,
        registerSigbusHandlerFails := true }).2 =
      Except.error SharedMemoryObjectError.INTERNAL_LOGIC_FAILURE
    ∧ CreateEvent.memsetZero ∉ (SharedMemoryObjectBuilder.create 0 16
      { sharedMemoryCreateFails := false, memoryMapFails := false,
        hasOwnership := true, writeZerosOnCreation := true,
        registerSigbusHandlerFails := true }).1 := by
  have h := create_sigbus_register_failure 0 16
    { sharedMemoryCreateFails := false, memoryMapFails := false,
      hasOwnership := true, writeZerosOnCreation := true,
      registerSigbusHandlerFails := true } rfl rfl rfl rfl rfl
  exact ⟨h.1, h.2.1⟩

/-- Witness for C5: a concrete run whose lock fails with EWOULDBLOCK closes
descriptor 5 and returns LOCKED_BY_OTHER_PROCESS. -/
theorem fileLockBuilder_lock_failure_path_witness :
    (FileLockBuilder.create "/tmp/w.lock"
      { nameIsValid := true, pathIsValid := true, openOutcome := OpenOutcome.opened 5,
        lockErrno := some 11, closeErrno := some 9 }).1 =
      [OsOp.openLockFile "/tmp/w.lock", OsOp.flockExclusive 5, OsOp.closeFd 5]
    ∧ (FileLockBuilder.create "/tmp/w.lock"
      { nameIsValid := true, pathIsValid := true, openOutcome := OpenOutcome.opened 5,
        lockErrno := some 11, closeErrno := some 9 }).2 =
      Except.error FileLockError.LOCKED_BY_OTHER_PROCESS := by
  have h := fileLockBuilder_lock_failure_path "/tmp/w.lock"
    { nameIsValid := true, pathIsValid := true, openOutcome := OpenOutcome.opened 5,
      lockErrno := some 11, closeErrno := some 9 } 5 11 rfl rfl rfl rfl
  exact ⟨h.1, h.2.2.2 rfl⟩

end Iox
